import Mathlib

/-!
A shallow embedding of the multi-satellite data fusion engine, the class
DataFusionEngine of data_fusion.py.  Numeric values are modelled as
rationals.  A Python dictionary keyed by satellite name is modelled as an
association list in insertion order; a missing key or a Python None is
modelled with Option (so a report field whose value is none models a
dictionary in which that key is absent).  The one Python exception the
engine can raise on well-shaped top-level input, the TypeError raised when
the comparison 0 <= temp <= 60 is applied to a dictionary, is modelled with
Except: computations that can raise return Except String.  The wall-clock
reading datetime.now().isoformat() is modelled as an extra input, the
argument now of fuse_satellite_data.
-/

namespace Omnisight

/-- The temperature field of one source: absent (missing key or None), a
flat numeric scalar, or a nested dictionary whose two optional numeric
entries model the land_surface and mean keys read by the engine. -/
inductive TempVal where
  | absent : TempVal
  | num : ℚ → TempVal
  | nested : Option ℚ → Option ℚ → TempVal
deriving DecidableEq

/-- One source's data dictionary: its status string, the optional ndvi and
evi entries of its indices sub-dictionary (none models a missing indices
key or a missing index), its temperature field, and its optional
soil_moisture_estimate field. -/
structure SatData where
  status : String
  ndvi : Option ℚ
  evi : Option ℚ
  temperature : TempVal
  soil_moisture_estimate : Option ℚ
deriving DecidableEq

/-- The static reliability table self.satellite_weights built in
DataFusionEngine.__init__ (data_fusion.py lines 25-34). -/
def satellite_weights (s : String) : Option ℚ :=
  if s = "cartosat" then some 1.0
  else if s = "sentinel2" then some 0.95
  else if s = "irs" then some 0.90
  else if s = "landsat8" then some 0.85
  else if s = "sentinel1" then some 0.80
  else if s = "risat" then some 0.80
  else if s = "modis" then some 0.60
  else if s = "oceansat" then some 0.70
  else none

/-- The lookup self.satellite_weights.get(sat_name, 0.5) performed by every
per-metric fusion routine. -/
def weight_of (s : String) : ℚ := (satellite_weights s).getD 0.5

/-- The per-contributor record built by each fusion routine: the inner
dictionary holding the keys value and weight. -/
structure SourceEntry where
  value : ℚ
  weight : ℚ
deriving DecidableEq

/-- total_weight = sum(s['weight'] for s in sources.values()). -/
def total_weight (l : List (String × SourceEntry)) : ℚ :=
  (l.map (fun p => p.2.weight)).sum

/-- sum(s['value'] * s['weight'] for s in sources.values()). -/
def weighted_value_sum (l : List (String × SourceEntry)) : ℚ :=
  (l.map (fun p => p.2.value * p.2.weight)).sum

/-- The reliability-weighted arithmetic mean each routine computes:
sum(value * weight) / total_weight. -/
def weighted_mean (l : List (String × SourceEntry)) : ℚ :=
  weighted_value_sum l / total_weight l

/-- np.var(values): the population variance, mean of squared deviations
from the arithmetic mean. -/
def np_var (values : List ℚ) : ℚ :=
  ((values.map (fun x => (x - values.sum / (values.length : ℚ)) ^ 2)).sum) /
    (values.length : ℚ)

/-- variance = np.var(values) if len(values) > 1 else 0.0, the guard each
routine places around the variance computation. -/
def variance_of (values : List ℚ) : ℚ :=
  if 1 < values.length then np_var values else 0

/-- DataFusionEngine._calculate_confidence (data_fusion.py lines 362-383). -/
def calculate_confidence (num_sources : ℕ) (variance max_variance : ℚ) : ℚ :=
  let source_confidence := min ((num_sources : ℚ) / 4.0) 1.0
  let variance_confidence := max 0.0 (1.0 - variance / max_variance)
  let confidence := source_confidence * 0.6 + variance_confidence * 0.4
  min (max confidence 0.0) 1.0

/-- The cross_val dictionary each routine returns: per-source raw values,
the fused value again, the variance, the qualitative agreement tier and
the contributor count. -/
structure CrossVal where
  sources : List (String × ℚ)
  fused : ℚ
  variance : ℚ
  agreement : String
  num_sources : ℕ
deriving DecidableEq

/-- The record a per-metric fusion routine returns: the fused value, its
confidence, and the cross-validation detail. -/
structure MetricFusion where
  value : ℚ
  confidence : ℚ
  cross_val : CrossVal
deriving DecidableEq

/-- The shared tail of the four per-metric routines (data_fusion.py lines
171-198, 234-260, 284-310, 332-356, which repeat this text verbatim with
the per-metric constants inlined): empty-contributor check, weighted mean,
variance, confidence with the metric's max_variance, and the agreement
tier cut at the metric's two thresholds lo and mid. -/
def build_metric (srcs : List (String × SourceEntry)) (max_variance lo mid : ℚ) :
    Option MetricFusion :=
  if srcs = [] then none
  else
    let values := srcs.map (fun p => p.2.value)
    let fused := weighted_mean srcs
    let variance := variance_of values
    let confidence := calculate_confidence srcs.length variance max_variance
    let agreement :=
      if variance < lo then ("High") else if variance < mid then ("Medium") else ("Low")
    some ⟨fused, confidence,
      ⟨srcs.map (fun p => (p.1, p.2.value)), fused, variance, agreement, srcs.length⟩⟩

/-- The contributor extraction of _fuse_ndvi (lines 156-169): a source
named sentinel2, landsat8 or irs whose indices dictionary carries an ndvi
value inside [-1, 1] is recorded with its reliability weight. -/
def ndvi_sources (satellites : List (String × SatData)) : List (String × SourceEntry) :=
  satellites.filterMap (fun p =>
    if p.1 = "sentinel2" ∨ p.1 = "landsat8" ∨ p.1 = "irs" then
      match p.2.ndvi with
      | some v => if -1 ≤ v ∧ v ≤ 1 then some (p.1, ⟨v, weight_of p.1⟩) else none
      | none => none
    else none)

/-- DataFusionEngine._fuse_ndvi: extraction then the shared tail with
max_variance 0.04 and agreement thresholds 0.02 and 0.05. -/
def fuse_ndvi (satellites : List (String × SatData)) : Option MetricFusion :=
  build_metric (ndvi_sources satellites) 0.04 0.02 0.05

/-- The contributor extraction of _fuse_evi (lines 320-330), identical to
the ndvi one but reading the evi index. -/
def evi_sources (satellites : List (String × SatData)) : List (String × SourceEntry) :=
  satellites.filterMap (fun p =>
    if p.1 = "sentinel2" ∨ p.1 = "landsat8" ∨ p.1 = "irs" then
      match p.2.evi with
      | some v => if -1 ≤ v ∧ v ≤ 1 then some (p.1, ⟨v, weight_of p.1⟩) else none
      | none => none
    else none)

/-- DataFusionEngine._fuse_evi: extraction then the shared tail with
max_variance 0.04 and agreement thresholds 0.02 and 0.05. -/
def fuse_evi (satellites : List (String × SatData)) : Option MetricFusion :=
  build_metric (evi_sources satellites) 0.04 0.02 0.05

/-- The contributor extraction of _fuse_moisture (lines 273-282): a source
named sentinel1 or risat whose soil_moisture_estimate lies inside
[0, 100]. -/
def moisture_sources (satellites : List (String × SatData)) : List (String × SourceEntry) :=
  satellites.filterMap (fun p =>
    if p.1 = "sentinel1" ∨ p.1 = "risat" then
      match p.2.soil_moisture_estimate with
      | some m => if 0 ≤ m ∧ m ≤ 100 then some (p.1, ⟨m, weight_of p.1⟩) else none
      | none => none
    else none)

/-- DataFusionEngine._fuse_moisture: extraction then the shared tail with
max_variance 100.0 and agreement thresholds 25 and 50. -/
def fuse_moisture (satellites : List (String × SatData)) : Option MetricFusion :=
  build_metric (moisture_sources satellites) 100.0 25 50

/-- The temperature scalar extraction of _fuse_temperature (lines 211-225)
together with the point where its range comparison can raise: landsat8 and
irs read the temperature field as-is, so a nested dictionary reaches the
comparison 0 <= temp <= 60 at line 227 and raises a TypeError; modis first
normalizes a nested dictionary by reading land_surface and falling back to
mean; every other satellite contributes no temperature. -/
def extract_temp (sat_name : String) (d : SatData) : Except String (Option ℚ) :=
  if sat_name = "landsat8" then
    match d.temperature with
    | TempVal.absent => Except.ok none
    | TempVal.num q => Except.ok (some q)
    | TempVal.nested _ _ => Except.error ("TypeError")
  else if sat_name = "modis" then
    match d.temperature with
    | TempVal.absent => Except.ok none
    | TempVal.num q => Except.ok (some q)
    | TempVal.nested ls m =>
      match ls with
      | some a => Except.ok (some a)
      | none => Except.ok m
  else if sat_name = "irs" then
    match d.temperature with
    | TempVal.absent => Except.ok none
    | TempVal.num q => Except.ok (some q)
    | TempVal.nested _ _ => Except.error ("TypeError")
  else Except.ok none

/-- The contributor loop of _fuse_temperature (lines 211-232): each
source's extracted scalar is kept when it lies inside [0, 60]; a raised
TypeError aborts the whole fusion. -/
def temp_sources : List (String × SatData) → Except String (List (String × SourceEntry))
  | [] => Except.ok []
  | (sat_name, d) :: rest =>
    match extract_temp sat_name d with
    | Except.error e => Except.error e
    | Except.ok none => temp_sources rest
    | Except.ok (some q) =>
      match temp_sources rest with
      | Except.error e => Except.error e
      | Except.ok tail =>
        if 0 ≤ q ∧ q ≤ 60 then Except.ok ((sat_name, ⟨q, weight_of sat_name⟩) :: tail)
        else Except.ok tail

/-- DataFusionEngine._fuse_temperature: extraction then the shared tail
with max_variance 4.0 and agreement thresholds 1.0 and 3.0. -/
def fuse_temperature (satellites : List (String × SatData)) :
    Except String (Option MetricFusion) :=
  match temp_sources satellites with
  | Except.error e => Except.error e
  | Except.ok srcs => Except.ok (build_metric srcs 4.0 1.0 3.0)

/-- The top-level input: the optional location passthrough and the
satellites mapping; satellites = none models an input dictionary without
a satellites key, and a (name, none) entry models a satellite whose entry
is None or an empty dictionary (both falsy in Python). -/
structure FusionInput where
  location : Option String
  satellites : Option (List (String × Option SatData))
deriving DecidableEq

/-- The output dictionary.  A field of Option type set to none models a
dictionary in which that key is absent (the two early-return paths of
fuse_satellite_data leave some keys unset). -/
structure FusionReport where
  timestamp : Option String
  location : Option String
  fused_metrics : List (String × ℚ)
  cross_validation : List (String × CrossVal)
  confidence_scores : List (String × ℚ)
  data_sources : List String
  consensus_level : Option String
  overall_quality : Option String
  overall_confidence : Option ℚ
  status : String
  message : Option String
deriving DecidableEq

/-- DataFusionEngine._filter_valid_satellites (lines 131-145): drop falsy
entries and keep those whose status is success, fallback or simulated. -/
def filter_valid_satellites (satellites : List (String × Option SatData)) :
    List (String × SatData) :=
  satellites.filterMap (fun p =>
    match p.2 with
    | none => none
    | some d =>
      if d.status = "success" ∨ d.status = "fallback" ∨ d.status = "simulated" then
        some (p.1, d)
      else none)

/-- DataFusionEngine._calculate_overall_confidence (lines 385-391):
statistics.mean of the per-metric confidences, 0.0 when none. -/
def calculate_overall_confidence (confidence_scores : List (String × ℚ)) : ℚ :=
  if confidence_scores = [] then 0.0
  else (confidence_scores.map (fun p => p.2)).sum / (confidence_scores.length : ℚ)

/-- DataFusionEngine._calculate_consensus_level (lines 393-408). -/
def calculate_consensus_level (cross_validation : List (String × CrossVal)) : String :=
  if cross_validation = [] then ("Unknown")
  else
    let agreements := cross_validation.map (fun p => p.2.agreement)
    let high_count := agreements.count ("High")
    let medium_count := agreements.count ("Medium")
    if (high_count : ℚ) ≥ (agreements.length : ℚ) * 0.7 then ("High")
    else if ((high_count : ℚ) + (medium_count : ℚ)) ≥ (agreements.length : ℚ) * 0.7 then
      ("Medium")
    else ("Low")

/-- DataFusionEngine._determine_quality (lines 410-419). -/
def determine_quality (confidence : ℚ) (num_sources : ℕ) : String :=
  if confidence ≥ 0.8 ∧ num_sources ≥ 4 then ("Excellent")
  else if confidence ≥ 0.7 ∧ num_sources ≥ 3 then ("Good")
  else if confidence ≥ 0.5 ∧ num_sources ≥ 2 then ("Fair")
  else ("Limited")

/-- The conditional insertion of one fused metric's value into the
fused_metrics dictionary (fuse_satellite_data lines 82-107). -/
def metric_value_entry (metric : String) : Option MetricFusion → List (String × ℚ)
  | some r => [(metric, r.value)]
  | none => []

/-- The conditional insertion of one fused metric's confidence into the
confidence_scores dictionary. -/
def metric_conf_entry (metric : String) : Option MetricFusion → List (String × ℚ)
  | some r => [(metric, r.confidence)]
  | none => []

/-- The conditional insertion of one fused metric's cross-validation
detail into the cross_validation dictionary. -/
def metric_cv_entry (metric : String) : Option MetricFusion → List (String × CrossVal)
  | some r => [(metric, r.cross_val)]
  | none => []

/-- DataFusionEngine.fuse_satellite_data (lines 40-125).  The argument now
stands for the datetime.now().isoformat() reading taken at line 61.  The
input value none models a falsy satellite_data argument. -/
def fuse_satellite_data (input : Option FusionInput) (now : String) :
    Except String FusionReport :=
  match input with
  | none =>
    Except.ok ⟨none, none, [], [], [], [], none, none, none, "error", some ("Invalid input data")⟩
  | some inp =>
    match inp.satellites with
    | none =>
      Except.ok
        ⟨none, none, [], [], [], [], none, none, none, "error", some ("Invalid input data")⟩
    | some satellites =>
      let valid_satellites := filter_valid_satellites satellites
      if valid_satellites = [] then
        Except.ok ⟨some now, inp.location, [], [], [], [], some ("Unknown"), some ("Unknown"),
          none, "no_valid_data", some ("No valid satellite data available for fusion")⟩
      else
        match fuse_temperature valid_satellites with
        | Except.error e => Except.error e
        | Except.ok fused_temp =>
          let fused_ndvi := fuse_ndvi valid_satellites
          let fused_moisture := fuse_moisture valid_satellites
          let fused_evi := fuse_evi valid_satellites
          let fused_metrics :=
            metric_value_entry ("ndvi") fused_ndvi ++
            metric_value_entry ("temperature") fused_temp ++
            metric_value_entry ("soil_moisture") fused_moisture ++
            metric_value_entry ("evi") fused_evi
          let confidence_scores :=
            metric_conf_entry ("ndvi") fused_ndvi ++
            metric_conf_entry ("temperature") fused_temp ++
            metric_conf_entry ("soil_moisture") fused_moisture ++
            metric_conf_entry ("evi") fused_evi
          let cross_validation :=
            metric_cv_entry ("ndvi") fused_ndvi ++
            metric_cv_entry ("temperature") fused_temp ++
            metric_cv_entry ("soil_moisture") fused_moisture ++
            metric_cv_entry ("evi") fused_evi
          let overall_confidence := calculate_overall_confidence confidence_scores
          Except.ok ⟨some now, inp.location, fused_metrics, cross_validation,
            confidence_scores, valid_satellites.map (fun p => p.1),
            some (calculate_consensus_level cross_validation),
            some (determine_quality overall_confidence valid_satellites.length),
            some overall_confidence, "success", none⟩

/-- The confidence formula as the specification states it: 0.6 times
min(contributor_count / 4, 1) plus 0.4 times max(0, 1 - variance /
max_variance), clamped to the interval [0, 1]. -/
def spec_confidence (contributor_count : ℕ) (variance max_variance : ℚ) : ℚ :=
  max 0 (min (0.6 * min ((contributor_count : ℚ) / 4) 1 +
    0.4 * max 0 (1 - variance / max_variance)) 1)

/-- The mock input of test_fusion_engine (data_fusion.py lines 518-539):
sentinel2, landsat8 and sentinel1 with status success, irs simulated. -/
def demo_input : List (String × Option SatData) :=
  [("sentinel2", some ⟨"success", some 0.65, some 0.52, TempVal.absent, none⟩),
   ("landsat8", some ⟨"success", some 0.63, some 0.50, TempVal.num 28.5, none⟩),
   ("sentinel1", some ⟨"success", none, none, TempVal.absent, some 45.0⟩),
   ("irs", some ⟨"simulated", some 0.64, some 0.51, TempVal.absent, none⟩)]

/-- The demo input after source filtering. -/
def demo_valid : List (String × SatData) := filter_valid_satellites demo_input

/-- The concrete scenario of the specification: the three optical sources
with ndvi values 0.65, 0.63 and 0.64, all with an eligible status. -/
def scenario_input : List (String × Option SatData) :=
  [("sentinel2", some ⟨"success", some 0.65, none, TempVal.absent, none⟩),
   ("landsat8", some ⟨"success", some 0.63, none, TempVal.absent, none⟩),
   ("irs", some ⟨"simulated", some 0.64, none, TempVal.absent, none⟩)]

/-- The scenario input after source filtering. -/
def scenario_valid : List (String × SatData) := filter_valid_satellites scenario_input

/-- A report with its timestamp field removed, used to state that the
engine depends on the wall clock only through that field. -/
def strip_timestamp : Except String FusionReport → Except String FusionReport
  | Except.error e => Except.error e
  | Except.ok r =>
    Except.ok ⟨none, r.location, r.fused_metrics, r.cross_validation, r.confidence_scores,
      r.data_sources, r.consensus_level, r.overall_quality, r.overall_confidence,
      r.status, r.message⟩

/-- An eligible landsat8 source whose temperature arrives in the nested
day/night/mean shape (only its mean entry is present, with value 25). -/
def nested_landsat_input : List (String × Option SatData) :=
  [("landsat8", some ⟨"success", none, none, TempVal.nested none (some 25), none⟩)]

/-- An eligible landsat8 source with an in-range ndvi and an out-of-range
flat temperature reading of 100. -/
def hot_landsat_input : List (String × Option SatData) :=
  [("landsat8", some ⟨"success", some 0.5, none, TempVal.num 100, none⟩)]

/-- A filtered mapping with a sub-zero landsat8 temperature and an
in-range modis temperature. -/
def cold_valid : List (String × SatData) :=
  [("landsat8", ⟨"success", none, none, TempVal.num (-5), none⟩),
   ("modis", ⟨"success", none, none, TempVal.num 30, none⟩)]

/-- Every reliability weight the engine can look up is positive. -/
lemma weight_of_pos (s : String) : 0 < weight_of s := by
  unfold weight_of satellite_weights
  split_ifs <;> norm_num

lemma total_weight_nonneg (l : List (String × SourceEntry))
    (h : ∀ p ∈ l, 0 ≤ p.2.weight) : 0 ≤ total_weight l := by
  induction l with
  | nil => simp [total_weight]
  | cons a t ih =>
    have ha := h a (List.mem_cons_self a t)
    have ht := ih (fun p hp => h p (List.mem_cons_of_mem a hp))
    simp only [total_weight, List.map_cons, List.sum_cons] at ht ⊢
    linarith

lemma total_weight_pos (l : List (String × SourceEntry)) (hne : l ≠ [])
    (h : ∀ p ∈ l, 0 < p.2.weight) : 0 < total_weight l := by
  cases l with
  | nil => exact absurd rfl hne
  | cons a t =>
    have ha := h a (List.mem_cons_self a t)
    have ht : 0 ≤ total_weight t :=
      total_weight_nonneg t (fun p hp => le_of_lt (h p (List.mem_cons_of_mem a hp)))
    simp only [total_weight, List.map_cons, List.sum_cons] at ht ⊢
    linarith

lemma weighted_value_sum_bounds (l : List (String × SourceEntry)) (a b : ℚ)
    (hw : ∀ p ∈ l, 0 < p.2.weight) (hv : ∀ p ∈ l, a ≤ p.2.value ∧ p.2.value ≤ b) :
    a * total_weight l ≤ weighted_value_sum l ∧ weighted_value_sum l ≤ b * total_weight l := by
  induction l with
  | nil => simp [total_weight, weighted_value_sum]
  | cons p t ih =>
    obtain ⟨ih1, ih2⟩ := ih (fun q hq => hw q (List.mem_cons_of_mem p hq))
      (fun q hq => hv q (List.mem_cons_of_mem p hq))
    have hpw := hw p (List.mem_cons_self p t)
    have hpv := hv p (List.mem_cons_self p t)
    simp only [total_weight, weighted_value_sum, List.map_cons, List.sum_cons] at ih1 ih2 ⊢
    have h1 : a * p.2.weight ≤ p.2.value * p.2.weight :=
      mul_le_mul_of_nonneg_right hpv.1 (le_of_lt hpw)
    have h2 : p.2.value * p.2.weight ≤ b * p.2.weight :=
      mul_le_mul_of_nonneg_right hpv.2 (le_of_lt hpw)
    constructor
    · rw [mul_add]; linarith
    · rw [mul_add]; linarith

/-- A reliability-weighted mean of values inside [a, b], with positive
weights, stays inside [a, b]. -/
lemma weighted_mean_bounds (l : List (String × SourceEntry)) (a b : ℚ) (hne : l ≠ [])
    (hw : ∀ p ∈ l, 0 < p.2.weight) (hv : ∀ p ∈ l, a ≤ p.2.value ∧ p.2.value ≤ b) :
    a ≤ weighted_mean l ∧ weighted_mean l ≤ b := by
  have hT := total_weight_pos l hne hw
  obtain ⟨h1, h2⟩ := weighted_value_sum_bounds l a b hw hv
  unfold weighted_mean
  exact ⟨(le_div_iff₀ hT).mpr h1, (div_le_iff₀ hT).mpr h2⟩

/-- Destructor for a successful run of the shared fusion tail. -/
lemma build_metric_eq_some {srcs : List (String × SourceEntry)} {mv lo mid : ℚ}
    {r : MetricFusion} (h : build_metric srcs mv lo mid = some r) :
    srcs ≠ [] ∧
    r.value = weighted_mean srcs ∧
    r.confidence =
      calculate_confidence srcs.length (variance_of (srcs.map (fun p => p.2.value))) mv ∧
    r.cross_val.sources = srcs.map (fun p => (p.1, p.2.value)) ∧
    r.cross_val.variance = variance_of (srcs.map (fun p => p.2.value)) ∧
    r.cross_val.num_sources = srcs.length ∧
    r.cross_val.agreement =
      (if variance_of (srcs.map (fun p => p.2.value)) < lo then ("High")
       else if variance_of (srcs.map (fun p => p.2.value)) < mid then ("Medium")
       else ("Low")) := by
  unfold build_metric at h
  by_cases hs : srcs = []
  · rw [if_pos hs] at h
    exact absurd h (by simp)
  · rw [if_neg hs] at h
    injection h with h2
    subst h2
    exact ⟨hs, rfl, rfl, rfl, rfl, rfl, rfl⟩

/-- The executed branch of the shared fusion tail on a nonempty
contributor list. -/
lemma build_metric_of_ne {srcs : List (String × SourceEntry)} {mv lo mid : ℚ}
    (hs : srcs ≠ []) :
    build_metric srcs mv lo mid =
      some ⟨weighted_mean srcs,
        calculate_confidence srcs.length (variance_of (srcs.map (fun p => p.2.value))) mv,
        ⟨srcs.map (fun p => (p.1, p.2.value)), weighted_mean srcs,
          variance_of (srcs.map (fun p => p.2.value)),
          (if variance_of (srcs.map (fun p => p.2.value)) < lo then ("High")
           else if variance_of (srcs.map (fun p => p.2.value)) < mid then ("Medium")
           else ("Low")),
          srcs.length⟩⟩ := by
  unfold build_metric
  rw [if_neg hs]

/-- Each ndvi contributor is an eligible satellite's raw, unmodified ndvi
value, and that value lies inside [-1, 1]. -/
lemma mem_ndvi_sources {satellites : List (String × SatData)} {name : String}
    {e : SourceEntry} (h : (name, e) ∈ ndvi_sources satellites) :
    ∃ d, (name, d) ∈ satellites ∧ d.ndvi = some e.value ∧
      -1 ≤ e.value ∧ e.value ≤ 1 ∧ e.weight = weight_of name := by
  unfold ndvi_sources at h
  obtain ⟨⟨n0, d0⟩, hq, hf⟩ := List.mem_filterMap.mp h
  by_cases h1 : n0 = "sentinel2" ∨ n0 = "landsat8" ∨ n0 = "irs"
  · rw [if_pos h1] at hf
    cases hn : d0.ndvi with
    | none => rw [hn] at hf; exact absurd hf (by simp)
    | some v =>
      rw [hn] at hf
      dsimp only at hf
      by_cases h2 : -1 ≤ v ∧ v ≤ 1
      · rw [if_pos h2] at hf
        injection hf with hf2
        injection hf2 with hname he
        subst hname
        subst he
        exact ⟨d0, hq, hn, h2.1, h2.2, rfl⟩
      · rw [if_neg h2] at hf
        exact absurd hf (by simp)
  · rw [if_neg h1] at hf
    exact absurd hf (by simp)

/-- Each evi contributor is an eligible satellite's raw, unmodified evi
value, and that value lies inside [-1, 1]. -/
lemma mem_evi_sources {satellites : List (String × SatData)} {name : String}
    {e : SourceEntry} (h : (name, e) ∈ evi_sources satellites) :
    ∃ d, (name, d) ∈ satellites ∧ d.evi = some e.value ∧
      -1 ≤ e.value ∧ e.value ≤ 1 ∧ e.weight = weight_of name := by
  unfold evi_sources at h
  obtain ⟨⟨n0, d0⟩, hq, hf⟩ := List.mem_filterMap.mp h
  by_cases h1 : n0 = "sentinel2" ∨ n0 = "landsat8" ∨ n0 = "irs"
  · rw [if_pos h1] at hf
    cases hn : d0.evi with
    | none => rw [hn] at hf; exact absurd hf (by simp)
    | some v =>
      rw [hn] at hf
      dsimp only at hf
      by_cases h2 : -1 ≤ v ∧ v ≤ 1
      · rw [if_pos h2] at hf
        injection hf with hf2
        injection hf2 with hname he
        subst hname
        subst he
        exact ⟨d0, hq, hn, h2.1, h2.2, rfl⟩
      · rw [if_neg h2] at hf
        exact absurd hf (by simp)
  · rw [if_neg h1] at hf
    exact absurd hf (by simp)

/-- Each moisture contributor is an eligible satellite's raw, unmodified
soil_moisture_estimate, and that value lies inside [0, 100]. -/
lemma mem_moisture_sources {satellites : List (String × SatData)} {name : String}
    {e : SourceEntry} (h : (name, e) ∈ moisture_sources satellites) :
    ∃ d, (name, d) ∈ satellites ∧ d.soil_moisture_estimate = some e.value ∧
      0 ≤ e.value ∧ e.value ≤ 100 ∧ e.weight = weight_of name := by
  unfold moisture_sources at h
  obtain ⟨⟨n0, d0⟩, hq, hf⟩ := List.mem_filterMap.mp h
  by_cases h1 : n0 = "sentinel1" ∨ n0 = "risat"
  · rw [if_pos h1] at hf
    cases hn : d0.soil_moisture_estimate with
    | none => rw [hn] at hf; exact absurd hf (by simp)
    | some v =>
      rw [hn] at hf
      dsimp only at hf
      by_cases h2 : 0 ≤ v ∧ v ≤ 100
      · rw [if_pos h2] at hf
        injection hf with hf2
        injection hf2 with hname he
        subst hname
        subst he
        exact ⟨d0, hq, hn, h2.1, h2.2, rfl⟩
      · rw [if_neg h2] at hf
        exact absurd hf (by simp)
  · rw [if_neg h1] at hf
    exact absurd hf (by simp)

/-- Each temperature contributor is the scalar successfully extracted from
some satellite of the list, and that scalar lies inside [0, 60]. -/
lemma mem_temp_sources (satellites : List (String × SatData)) :
    ∀ (srcs : List (String × SourceEntry)), temp_sources satellites = Except.ok srcs →
    ∀ (name : String) (e : SourceEntry), (name, e) ∈ srcs →
      ∃ d, (name, d) ∈ satellites ∧ extract_temp name d = Except.ok (some e.value) ∧
        0 ≤ e.value ∧ e.value ≤ 60 ∧ e.weight = weight_of name := by
  induction satellites with
  | nil =>
    intro srcs h name e hm
    simp only [temp_sources] at h
    injection h with h2
    subst h2
    simp at hm
  | cons p rest ih =>
    intro srcs h name e hm
    obtain ⟨n0, d0⟩ := p
    simp only [temp_sources] at h
    cases hx : extract_temp n0 d0 with
    | error er => rw [hx] at h; exact absurd h (by simp)
    | ok t =>
      rw [hx] at h
      cases t with
      | none =>
        dsimp only at h
        obtain ⟨d, hd, hrest⟩ := ih srcs h name e hm
        exact ⟨d, List.mem_cons_of_mem _ hd, hrest⟩
      | some q =>
        dsimp only at h
        cases hr : temp_sources rest with
        | error er => rw [hr] at h; exact absurd h (by simp)
        | ok tail =>
          rw [hr] at h
          dsimp only at h
          by_cases hq : 0 ≤ q ∧ q ≤ 60
          · rw [if_pos hq] at h
            injection h with h2
            subst h2
            rcases List.mem_cons.mp hm with hh | ht
            · injection hh with hn he
              subst hn
              subst he
              exact ⟨d0, List.mem_cons_self _ _, hx, hq.1, hq.2, rfl⟩
            · obtain ⟨d, hd, hrest⟩ := ih tail hr name e ht
              exact ⟨d, List.mem_cons_of_mem _ hd, hrest⟩
          · rw [if_neg hq] at h
            injection h with h2
            subst h2
            obtain ⟨d, hd, hrest⟩ := ih tail hr name e hm
            exact ⟨d, List.mem_cons_of_mem _ hd, hrest⟩

/-- The temperature extraction raises only for a landsat8 or irs source
carrying a nested temperature dictionary. -/
lemma extract_temp_ok (name : String) (d : SatData)
    (hsafe : (name = "landsat8" ∨ name = "irs") →
      ∀ ls m, d.temperature ≠ TempVal.nested ls m) :
    ∃ t, extract_temp name d = Except.ok t := by
  unfold extract_temp
  by_cases h1 : name = "landsat8"
  · rw [if_pos h1]
    cases hT : d.temperature with
    | absent => exact ⟨none, rfl⟩
    | num q => exact ⟨some q, rfl⟩
    | nested ls m => exact absurd hT (hsafe (Or.inl h1) ls m)
  · rw [if_neg h1]
    by_cases h2 : name = "modis"
    · rw [if_pos h2]
      cases hT : d.temperature with
      | absent => exact ⟨none, rfl⟩
      | num q => exact ⟨some q, rfl⟩
      | nested ls m =>
        cases ls with
        | some a => exact ⟨some a, rfl⟩
        | none => exact ⟨m, rfl⟩
    · rw [if_neg h2]
      by_cases h3 : name = "irs"
      · rw [if_pos h3]
        cases hT : d.temperature with
        | absent => exact ⟨none, rfl⟩
        | num q => exact ⟨some q, rfl⟩
        | nested ls m => exact absurd hT (hsafe (Or.inr h3) ls m)
      · rw [if_neg h3]
        exact ⟨none, rfl⟩

/-- The temperature contributor loop succeeds whenever no landsat8 or irs
source carries a nested temperature dictionary. -/
lemma temp_sources_ok (satellites : List (String × SatData))
    (hsafe : ∀ p ∈ satellites, (p.1 = "landsat8" ∨ p.1 = "irs") →
      ∀ ls m, p.2.temperature ≠ TempVal.nested ls m) :
    ∃ srcs, temp_sources satellites = Except.ok srcs := by
  induction satellites with
  | nil => exact ⟨[], rfl⟩
  | cons p rest ih =>
    obtain ⟨n0, d0⟩ := p
    obtain ⟨t, ht⟩ := extract_temp_ok n0 d0 (hsafe (n0, d0) (List.mem_cons_self _ _))
    obtain ⟨tail, htail⟩ := ih (fun q hq => hsafe q (List.mem_cons_of_mem _ hq))
    simp only [temp_sources]
    rw [ht]
    cases t with
    | none => exact ⟨tail, htail⟩
    | some q =>
      dsimp only
      rw [htail]
      dsimp only
      by_cases hq : 0 ≤ q ∧ q ≤ 60
      · rw [if_pos hq]
        exact ⟨_, rfl⟩
      · rw [if_neg hq]
        exact ⟨tail, rfl⟩

lemma list_sum_const (l : List ℚ) (v : ℚ) (h : ∀ x ∈ l, x = v) :
    l.sum = (l.length : ℚ) * v := by
  induction l with
  | nil => simp
  | cons a t ih =>
    have ha := h a (List.mem_cons_self a t)
    have ht := ih (fun x hx => h x (List.mem_cons_of_mem a hx))
    simp only [List.sum_cons, List.length_cons, ha, ht]
    push_cast
    ring

/-- The population variance of a list of equal values is zero. -/
lemma np_var_const (l : List ℚ) (v : ℚ) (hne : l ≠ []) (h : ∀ x ∈ l, x = v) :
    np_var l = 0 := by
  have hn : (l.length : ℚ) ≠ 0 := by
    have : l.length ≠ 0 := by
      intro h0
      exact hne (List.length_eq_zero.mp h0)
    exact_mod_cast this
  have hmean : l.sum / (l.length : ℚ) = v := by
    rw [list_sum_const l v h]
    field_simp
  unfold np_var
  simp only [hmean]
  have hz : ∀ y ∈ l.map (fun x => (x - v) ^ 2), y = 0 := by
    intro y hy
    obtain ⟨x, hx, hxy⟩ := List.mem_map.mp hy
    rw [h x hx] at hxy
    simpa using hxy.symm
  rw [list_sum_const _ 0 hz]
  simp

/-- The guarded variance of a list of equal values is zero. -/
lemma variance_of_const (l : List ℚ) (v : ℚ) (h : ∀ x ∈ l, x = v) :
    variance_of l = 0 := by
  unfold variance_of
  by_cases h1 : 1 < l.length
  · rw [if_pos h1]
    refine np_var_const l v ?_ h
    intro he
    subst he
    simp at h1
  · rw [if_neg h1]

/-- The two clamp orders agree: min (max c 0) 1 = max 0 (min c 1). -/
lemma min_max_clamp_comm (c : ℚ) : min (max c 0) 1 = max 0 (min c 1) := by
  simp only [min_def, max_def]
  split_ifs <;> linarith

/-- The code's confidence computation equals the specification's formula. -/
lemma calculate_confidence_eq_spec (n : ℕ) (v mv : ℚ) :
    calculate_confidence n v mv = spec_confidence n v mv := by
  unfold calculate_confidence spec_confidence
  have h40 : (4.0 : ℚ) = 4 := by norm_num
  have h10 : (1.0 : ℚ) = 1 := by norm_num
  have h00 : (0.0 : ℚ) = 0 := by norm_num
  simp only [h40, h10, h00]
  rw [mul_comm (min ((n : ℚ) / 4) 1) 0.6, mul_comm (max 0 (1 - v / mv)) 0.4,
    min_max_clamp_comm]

/-- Each filtered satellite entry comes from a present, non-falsy input
entry with an eligible status. -/
lemma mem_filter_valid {satellites : List (String × Option SatData)} {name : String}
    {d : SatData} (h : (name, d) ∈ filter_valid_satellites satellites) :
    (name, some d) ∈ satellites ∧
      (d.status = "success" ∨ d.status = "fallback" ∨ d.status = "simulated") := by
  unfold filter_valid_satellites at h
  obtain ⟨⟨n0, e0⟩, hq, hf⟩ := List.mem_filterMap.mp h
  cases e0 with
  | none => exact absurd hf (by simp)
  | some d0 =>
    dsimp only at hf
    by_cases h1 : d0.status = "success" ∨ d0.status = "fallback" ∨ d0.status = "simulated"
    · rw [if_pos h1] at hf
      injection hf with hf2
      injection hf2 with hname hd
      subst hname
      subst hd
      exact ⟨hq, h1⟩
    · rw [if_neg h1] at hf
      exact absurd hf (by simp)

/-- A present entry with an eligible status survives the filter. -/
lemma mem_filter_valid_of {satellites : List (String × Option SatData)} {name : String}
    {d : SatData} (h : (name, some d) ∈ satellites)
    (helig : d.status = "success" ∨ d.status = "fallback" ∨ d.status = "simulated") :
    (name, d) ∈ filter_valid_satellites satellites := by
  unfold filter_valid_satellites
  refine List.mem_filterMap.mpr ⟨(name, some d), h, ?_⟩
  dsimp only
  rw [if_pos helig]

lemma demo_valid_eq :
    demo_valid =
      [("sentinel2", ⟨"success", some 0.65, some 0.52, TempVal.absent, none⟩),
       ("landsat8", ⟨"success", some 0.63, some 0.50, TempVal.num 28.5, none⟩),
       ("sentinel1", ⟨"success", none, none, TempVal.absent, some 45.0⟩),
       ("irs", ⟨"simulated", some 0.64, some 0.51, TempVal.absent, none⟩)] := by
  simp [demo_valid, demo_input, filter_valid_satellites, List.filterMap_cons]

lemma fuse_ndvi_demo :
    fuse_ndvi demo_valid =
      some ⟨1729 / 2700, 637 / 750,
        ⟨[("sentinel2", 13 / 20), ("landsat8", 63 / 100), ("irs", 16 / 25)],
          1729 / 2700, 1 / 15000, "High", 3⟩⟩ := by
  have hs : ndvi_sources demo_valid =
      [("sentinel2", ⟨13 / 20, 19 / 20⟩), ("landsat8", ⟨63 / 100, 17 / 20⟩),
       ("irs", ⟨16 / 25, 9 / 10⟩)] := by
    rw [demo_valid_eq]
    simp [ndvi_sources, List.filterMap_cons, weight_of, satellite_weights]
    norm_num
  rw [fuse_ndvi, hs, build_metric_of_ne (by simp)]
  simp [weighted_mean, weighted_value_sum, total_weight, variance_of, np_var,
    calculate_confidence]
  norm_num

lemma fuse_evi_demo :
    fuse_evi demo_valid =
      some ⟨689 / 1350, 637 / 750,
        ⟨[("sentinel2", 13 / 25), ("landsat8", 1 / 2), ("irs", 51 / 100)],
          689 / 1350, 1 / 15000, "High", 3⟩⟩ := by
  have hs : evi_sources demo_valid =
      [("sentinel2", ⟨13 / 25, 19 / 20⟩), ("landsat8", ⟨1 / 2, 17 / 20⟩),
       ("irs", ⟨51 / 100, 9 / 10⟩)] := by
    rw [demo_valid_eq]
    simp [evi_sources, List.filterMap_cons, weight_of, satellite_weights]
    norm_num
  rw [fuse_evi, hs, build_metric_of_ne (by simp)]
  simp [weighted_mean, weighted_value_sum, total_weight, variance_of, np_var,
    calculate_confidence]
  norm_num

lemma temp_sources_demo :
    temp_sources demo_valid = Except.ok [("landsat8", ⟨57 / 2, 17 / 20⟩)] := by
  rw [demo_valid_eq]
  simp [temp_sources, extract_temp, weight_of, satellite_weights]
  norm_num

lemma fuse_temperature_demo :
    fuse_temperature demo_valid =
      Except.ok (some ⟨57 / 2, 11 / 20,
        ⟨[("landsat8", 57 / 2)], 57 / 2, 0, "High", 1⟩⟩) := by
  rw [fuse_temperature, temp_sources_demo]
  dsimp only
  rw [build_metric_of_ne (by simp)]
  simp [weighted_mean, weighted_value_sum, total_weight, variance_of, np_var,
    calculate_confidence]
  norm_num

lemma fuse_moisture_demo :
    fuse_moisture demo_valid =
      some ⟨45, 11 / 20, ⟨[("sentinel1", 45)], 45, 0, "High", 1⟩⟩ := by
  have hs : moisture_sources demo_valid = [("sentinel1", ⟨45, 4 / 5⟩)] := by
    rw [demo_valid_eq]
    simp [moisture_sources, List.filterMap_cons, weight_of, satellite_weights]
    norm_num
  rw [fuse_moisture, hs, build_metric_of_ne (by simp)]
  simp [weighted_mean, weighted_value_sum, total_weight, variance_of, np_var,
    calculate_confidence]
  norm_num

lemma fuse_ndvi_scenario :
    fuse_ndvi scenario_valid =
      some ⟨1729 / 2700, 637 / 750,
        ⟨[("sentinel2", 13 / 20), ("landsat8", 63 / 100), ("irs", 16 / 25)],
          1729 / 2700, 1 / 15000, "High", 3⟩⟩ := by
  have hv : scenario_valid =
      [("sentinel2", ⟨"success", some 0.65, none, TempVal.absent, none⟩),
       ("landsat8", ⟨"success", some 0.63, none, TempVal.absent, none⟩),
       ("irs", ⟨"simulated", some 0.64, none, TempVal.absent, none⟩)] := by
    simp [scenario_valid, scenario_input, filter_valid_satellites, List.filterMap_cons]
  have hs : ndvi_sources scenario_valid =
      [("sentinel2", ⟨13 / 20, 19 / 20⟩), ("landsat8", ⟨63 / 100, 17 / 20⟩),
       ("irs", ⟨16 / 25, 9 / 10⟩)] := by
    rw [hv]
    simp [ndvi_sources, List.filterMap_cons, weight_of, satellite_weights]
    norm_num
  rw [fuse_ndvi, hs, build_metric_of_ne (by simp)]
  simp [weighted_mean, weighted_value_sum, total_weight, variance_of, np_var,
    calculate_confidence]
  norm_num

/-- Claim C1: for every fused metric the reported confidence equals
0.6 * min(contributor_count / 4, 1) + 0.4 * max(0, 1 - variance /
max_variance), clamped to [0, 1], where max_variance is 0.04 for the
vegetation indices ndvi and evi, 4.0 for temperature, and 100 for soil
moisture. -/
theorem C1_confidence_formula (valid : List (String × SatData)) :
    (∀ r, fuse_ndvi valid = some r →
      r.confidence = spec_confidence r.cross_val.num_sources r.cross_val.variance 0.04) ∧
    (∀ r, fuse_evi valid = some r →
      r.confidence = spec_confidence r.cross_val.num_sources r.cross_val.variance 0.04) ∧
    (∀ r, fuse_temperature valid = Except.ok (some r) →
      r.confidence = spec_confidence r.cross_val.num_sources r.cross_val.variance 4.0) ∧
    (∀ r, fuse_moisture valid = some r →
      r.confidence = spec_confidence r.cross_val.num_sources r.cross_val.variance 100.0) := by
  refine ⟨?_, ?_, ?_, ?_⟩
  · intro r h
    rw [fuse_ndvi] at h
    obtain ⟨-, -, hc, -, hv, hn, -⟩ := build_metric_eq_some h
    rw [hc, hn, hv, calculate_confidence_eq_spec]
  · intro r h
    rw [fuse_evi] at h
    obtain ⟨-, -, hc, -, hv, hn, -⟩ := build_metric_eq_some h
    rw [hc, hn, hv, calculate_confidence_eq_spec]
  · intro r h
    rw [fuse_temperature] at h
    cases hts : temp_sources valid with
    | error e => rw [hts] at h; exact absurd h (by simp)
    | ok srcs =>
      rw [hts] at h
      dsimp only at h
      injection h with h2
      obtain ⟨-, -, hc, -, hv, hn, -⟩ := build_metric_eq_some h2
      rw [hc, hn, hv, calculate_confidence_eq_spec]
  · intro r h
    rw [fuse_moisture] at h
    obtain ⟨-, -, hc, -, hv, hn, -⟩ := build_metric_eq_some h
    rw [hc, hn, hv, calculate_confidence_eq_spec]

/-- Witness for C1 at the concrete demo input: all four metric routines
fuse and their confidences match the specification's formula. -/
theorem C1_witness :
    (∃ r, fuse_ndvi demo_valid = some r ∧
      r.confidence = spec_confidence r.cross_val.num_sources r.cross_val.variance 0.04) ∧
    (∃ r, fuse_evi demo_valid = some r ∧
      r.confidence = spec_confidence r.cross_val.num_sources r.cross_val.variance 0.04) ∧
    (∃ r, fuse_temperature demo_valid = Except.ok (some r) ∧
      r.confidence = spec_confidence r.cross_val.num_sources r.cross_val.variance 4.0) ∧
    (∃ r, fuse_moisture demo_valid = some r ∧
      r.confidence = spec_confidence r.cross_val.num_sources r.cross_val.variance 100.0) :=
  ⟨⟨_, fuse_ndvi_demo, (C1_confidence_formula demo_valid).1 _ fuse_ndvi_demo⟩,
   ⟨_, fuse_evi_demo, (C1_confidence_formula demo_valid).2.1 _ fuse_evi_demo⟩,
   ⟨_, fuse_temperature_demo,
     (C1_confidence_formula demo_valid).2.2.1 _ fuse_temperature_demo⟩,
   ⟨_, fuse_moisture_demo, (C1_confidence_formula demo_valid).2.2.2 _ fuse_moisture_demo⟩⟩

/-- Claim C2: each fused metric value lies within the metric's physically
valid range, and every contributing value recorded in the cross-validation
is some source's raw, unmodified reading, itself in range (out-of-range
readings are rejected per source, never clamped). -/
theorem C2_range_invariant (valid : List (String × SatData)) :
    (∀ r, fuse_ndvi valid = some r → (-1 ≤ r.value ∧ r.value ≤ 1) ∧
      ∀ p ∈ r.cross_val.sources,
        ∃ d, (p.1, d) ∈ valid ∧ d.ndvi = some p.2 ∧ -1 ≤ p.2 ∧ p.2 ≤ 1) ∧
    (∀ r, fuse_evi valid = some r → (-1 ≤ r.value ∧ r.value ≤ 1) ∧
      ∀ p ∈ r.cross_val.sources,
        ∃ d, (p.1, d) ∈ valid ∧ d.evi = some p.2 ∧ -1 ≤ p.2 ∧ p.2 ≤ 1) ∧
    (∀ r, fuse_moisture valid = some r → (0 ≤ r.value ∧ r.value ≤ 100) ∧
      ∀ p ∈ r.cross_val.sources,
        ∃ d, (p.1, d) ∈ valid ∧ d.soil_moisture_estimate = some p.2 ∧
          0 ≤ p.2 ∧ p.2 ≤ 100) ∧
    (∀ r, fuse_temperature valid = Except.ok (some r) → (0 ≤ r.value ∧ r.value ≤ 60) ∧
      ∀ p ∈ r.cross_val.sources,
        ∃ d, (p.1, d) ∈ valid ∧ extract_temp p.1 d = Except.ok (some p.2) ∧
          0 ≤ p.2 ∧ p.2 ≤ 60) := by
  refine ⟨?_, ?_, ?_, ?_⟩
  · intro r h
    rw [fuse_ndvi] at h
    obtain ⟨hne, hval, -, hsrc, -, -, -⟩ := build_metric_eq_some h
    have hbound : ∀ p ∈ ndvi_sources valid, -1 ≤ p.2.value ∧ p.2.value ≤ 1 := by
      rintro ⟨n, e⟩ hp
      obtain ⟨d, -, -, h1, h2, -⟩ := mem_ndvi_sources hp
      exact ⟨h1, h2⟩
    have hwpos : ∀ p ∈ ndvi_sources valid, 0 < p.2.weight := by
      rintro ⟨n, e⟩ hp
      obtain ⟨d, -, -, -, -, hw⟩ := mem_ndvi_sources hp
      rw [hw]
      exact weight_of_pos n
    constructor
    · rw [hval]
      exact weighted_mean_bounds _ _ _ hne hwpos hbound
    · intro p hp
      rw [hsrc] at hp
      obtain ⟨q, hq, hqe⟩ := List.mem_map.mp hp
      obtain ⟨d, hd, hnd, h1, h2, -⟩ := mem_ndvi_sources hq
      subst hqe
      exact ⟨d, hd, hnd, h1, h2⟩
  · intro r h
    rw [fuse_evi] at h
    obtain ⟨hne, hval, -, hsrc, -, -, -⟩ := build_metric_eq_some h
    have hbound : ∀ p ∈ evi_sources valid, -1 ≤ p.2.value ∧ p.2.value ≤ 1 := by
      rintro ⟨n, e⟩ hp
      obtain ⟨d, -, -, h1, h2, -⟩ := mem_evi_sources hp
      exact ⟨h1, h2⟩
    have hwpos : ∀ p ∈ evi_sources valid, 0 < p.2.weight := by
      rintro ⟨n, e⟩ hp
      obtain ⟨d, -, -, -, -, hw⟩ := mem_evi_sources hp
      rw [hw]
      exact weight_of_pos n
    constructor
    · rw [hval]
      exact weighted_mean_bounds _ _ _ hne hwpos hbound
    · intro p hp
      rw [hsrc] at hp
      obtain ⟨q, hq, hqe⟩ := List.mem_map.mp hp
      obtain ⟨d, hd, hnd, h1, h2, -⟩ := mem_evi_sources hq
      subst hqe
      exact ⟨d, hd, hnd, h1, h2⟩
  · intro r h
    rw [fuse_moisture] at h
    obtain ⟨hne, hval, -, hsrc, -, -, -⟩ := build_metric_eq_some h
    have hbound : ∀ p ∈ moisture_sources valid, 0 ≤ p.2.value ∧ p.2.value ≤ 100 := by
      rintro ⟨n, e⟩ hp
      obtain ⟨d, -, -, h1, h2, -⟩ := mem_moisture_sources hp
      exact ⟨h1, h2⟩
    have hwpos : ∀ p ∈ moisture_sources valid, 0 < p.2.weight := by
      rintro ⟨n, e⟩ hp
      obtain ⟨d, -, -, -, -, hw⟩ := mem_moisture_sources hp
      rw [hw]
      exact weight_of_pos n
    constructor
    · rw [hval]
      exact weighted_mean_bounds _ _ _ hne hwpos hbound
    · intro p hp
      rw [hsrc] at hp
      obtain ⟨q, hq, hqe⟩ := List.mem_map.mp hp
      obtain ⟨d, hd, hnd, h1, h2, -⟩ := mem_moisture_sources hq
      subst hqe
      exact ⟨d, hd, hnd, h1, h2⟩
  · intro r h
    rw [fuse_temperature] at h
    cases hts : temp_sources valid with
    | error e => rw [hts] at h; exact absurd h (by simp)
    | ok srcs =>
      rw [hts] at h
      dsimp only at h
      injection h with h2
      obtain ⟨hne, hval, -, hsrc, -, -, -⟩ := build_metric_eq_some h2
      have hbound : ∀ p ∈ srcs, 0 ≤ p.2.value ∧ p.2.value ≤ 60 := by
        rintro ⟨n, e⟩ hp
        obtain ⟨d, -, -, h1, h2, -⟩ := mem_temp_sources valid srcs hts n e hp
        exact ⟨h1, h2⟩
      have hwpos : ∀ p ∈ srcs, 0 < p.2.weight := by
        rintro ⟨n, e⟩ hp
        obtain ⟨d, -, -, -, -, hw⟩ := mem_temp_sources valid srcs hts n e hp
        rw [hw]
        exact weight_of_pos n
      constructor
      · rw [hval]
        exact weighted_mean_bounds _ _ _ hne hwpos hbound
      · intro p hp
        rw [hsrc] at hp
        obtain ⟨q, hq, hqe⟩ := List.mem_map.mp hp
        obtain ⟨d, hd, hex, h1, h2, -⟩ := mem_temp_sources valid srcs hts q.1 q.2 hq
        subst hqe
        exact ⟨d, hd, hex, h1, h2⟩

/-- Witness for C2 at the concrete demo input: each fused metric value is
inside its range. -/
theorem C2_witness :
    (∃ r, fuse_ndvi demo_valid = some r ∧ -1 ≤ r.value ∧ r.value ≤ 1) ∧
    (∃ r, fuse_evi demo_valid = some r ∧ -1 ≤ r.value ∧ r.value ≤ 1) ∧
    (∃ r, fuse_moisture demo_valid = some r ∧ 0 ≤ r.value ∧ r.value ≤ 100) ∧
    (∃ r, fuse_temperature demo_valid = Except.ok (some r) ∧
      0 ≤ r.value ∧ r.value ≤ 60) :=
  ⟨⟨_, fuse_ndvi_demo, ((C2_range_invariant demo_valid).1 _ fuse_ndvi_demo).1⟩,
   ⟨_, fuse_evi_demo, ((C2_range_invariant demo_valid).2.1 _ fuse_evi_demo).1⟩,
   ⟨_, fuse_moisture_demo, ((C2_range_invariant demo_valid).2.2.1 _ fuse_moisture_demo).1⟩,
   ⟨_, fuse_temperature_demo,
     ((C2_range_invariant demo_valid).2.2.2 _ fuse_temperature_demo).1⟩⟩

/-- Claim C5 as stated is false: the report embeds the wall-clock reading
in its timestamp field, so two invocations on the identical input produce
different reports. -/
theorem C5_counterexample :
    fuse_satellite_data (some ⟨none, some []⟩) ("2024-01-01T00:00:00") ≠
      fuse_satellite_data (some ⟨none, some []⟩) ("2024-01-01T00:00:01") := by
  intro h
  simp [fuse_satellite_data, filter_valid_satellites] at h

/-- Claim C5, amended: apart from the timestamp field, the report is a
pure, deterministic function of the input mapping (and the static weight
table): stripping the timestamp, two invocations at different clock
readings coincide. -/
theorem C5_amended_determinism (input : Option FusionInput) (t1 t2 : String) :
    strip_timestamp (fuse_satellite_data input t1) =
      strip_timestamp (fuse_satellite_data input t2) := by
  cases input with
  | none => rfl
  | some inp =>
    obtain ⟨loc, osats⟩ := inp
    cases osats with
    | none => rfl
    | some sats =>
      simp only [fuse_satellite_data]
      by_cases hv : filter_valid_satellites sats = []
      · rw [if_pos hv, if_pos hv]
        rfl
      · rw [if_neg hv, if_neg hv]
        cases ht : fuse_temperature (filter_valid_satellites sats) with
        | error e => rfl
        | ok ft => rfl

/-- Claim C6: an input entry that is absent, falsy, or whose status is not
success, fallback or simulated never appears among the filtered sources or
in data_sources, and contributes to no metric's fusion. -/
theorem C6_exclusion (satellites : List (String × Option SatData)) (loc : Option String)
    (now : String) (name : String)
    (hbad : ∀ e, (name, e) ∈ satellites → ∀ d, e = some d →
      ¬(d.status = "success" ∨ d.status = "fallback" ∨ d.status = "simulated")) :
    name ∉ (filter_valid_satellites satellites).map Prod.fst ∧
    (∀ rep, fuse_satellite_data (some ⟨loc, some satellites⟩) now = Except.ok rep →
      name ∉ rep.data_sources) ∧
    name ∉ (ndvi_sources (filter_valid_satellites satellites)).map Prod.fst ∧
    name ∉ (evi_sources (filter_valid_satellites satellites)).map Prod.fst ∧
    name ∉ (moisture_sources (filter_valid_satellites satellites)).map Prod.fst ∧
    (∀ srcs, temp_sources (filter_valid_satellites satellites) = Except.ok srcs →
      name ∉ srcs.map Prod.fst) := by
  have hfil : name ∉ (filter_valid_satellites satellites).map Prod.fst := by
    intro hmem
    obtain ⟨p, hp, hp1⟩ := List.mem_map.mp hmem
    obtain ⟨n0, d0⟩ := p
    dsimp only at hp1
    subst hp1
    obtain ⟨hin, helig⟩ := mem_filter_valid hp
    exact hbad (some d0) hin d0 rfl helig
  refine ⟨hfil, ?_, ?_, ?_, ?_, ?_⟩
  · intro rep hrep
    simp only [fuse_satellite_data] at hrep
    by_cases hv : filter_valid_satellites satellites = []
    · rw [if_pos hv] at hrep
      injection hrep with h2
      subst h2
      simp
    · rw [if_neg hv] at hrep
      cases ht : fuse_temperature (filter_valid_satellites satellites) with
      | error e => rw [ht] at hrep; exact absurd hrep (by simp)
      | ok ft =>
        rw [ht] at hrep
        dsimp only at hrep
        injection hrep with h2
        subst h2
        simpa using hfil
  · intro hmem
    obtain ⟨⟨n0, e0⟩, hp, hp1⟩ := List.mem_map.mp hmem
    dsimp only at hp1
    subst hp1
    obtain ⟨d, hd, -, -, -, -⟩ := mem_ndvi_sources hp
    exact hfil (List.mem_map.mpr ⟨(n0, d), hd, rfl⟩)
  · intro hmem
    obtain ⟨⟨n0, e0⟩, hp, hp1⟩ := List.mem_map.mp hmem
    dsimp only at hp1
    subst hp1
    obtain ⟨d, hd, -, -, -, -⟩ := mem_evi_sources hp
    exact hfil (List.mem_map.mpr ⟨(n0, d), hd, rfl⟩)
  · intro hmem
    obtain ⟨⟨n0, e0⟩, hp, hp1⟩ := List.mem_map.mp hmem
    dsimp only at hp1
    subst hp1
    obtain ⟨d, hd, -, -, -, -⟩ := mem_moisture_sources hp
    exact hfil (List.mem_map.mpr ⟨(n0, d), hd, rfl⟩)
  · intro srcs hts hmem
    obtain ⟨⟨n0, e0⟩, hp, hp1⟩ := List.mem_map.mp hmem
    dsimp only at hp1
    subst hp1
    obtain ⟨d, hd, -, -, -, -⟩ := mem_temp_sources _ srcs hts n0 e0 hp
    exact hfil (List.mem_map.mpr ⟨(n0, d), hd, rfl⟩)

/-- Witness for C6: a modis source with status error, next to an eligible
sentinel2 source, is excluded everywhere. -/
theorem C6_witness :
    "modis" ∉
      (filter_valid_satellites
        [("modis", some ⟨"error", some 0.5, none, TempVal.absent, none⟩),
         ("sentinel2", some ⟨"success", some 0.5, none, TempVal.absent, none⟩)]).map
        Prod.fst ∧
    "modis" ∉
      (ndvi_sources (filter_valid_satellites
        [("modis", some ⟨"error", some 0.5, none, TempVal.absent, none⟩),
         ("sentinel2", some ⟨"success", some 0.5, none, TempVal.absent, none⟩)])).map
        Prod.fst := by
  have h := C6_exclusion
    [("modis", some ⟨"error", some 0.5, none, TempVal.absent, none⟩),
     ("sentinel2", some ⟨"success", some 0.5, none, TempVal.absent, none⟩)]
    none ("t0") ("modis")
    (by
      intro e he d hd
      subst hd
      simp at he
      subst he
      simp)
  exact ⟨h.1, h.2.2.1⟩

/-- Claim C7 as stated is false: the no_valid_data report is missing the
overall_confidence key (modelled as the field being none), because the
early return happens before that key is ever set. -/
theorem C7_counterexample :
    ∃ rep,
      fuse_satellite_data (some ⟨none, some []⟩) ("2024-01-01T00:00:00") =
        Except.ok rep ∧
      rep.status = "no_valid_data" ∧ rep.fused_metrics = [] ∧
      rep.message = some ("No valid satellite data available for fusion") ∧
      rep.overall_confidence = none := by
  refine ⟨⟨some ("2024-01-01T00:00:00"), none, [], [], [], [], some ("Unknown"),
    some ("Unknown"), none, "no_valid_data",
    some ("No valid satellite data available for fusion")⟩, ?_, rfl, rfl, rfl, rfl⟩
  simp [fuse_satellite_data, filter_valid_satellites]

/-- Claim C7, amended: when the filtered mapping is empty the engine
short-circuits with status no_valid_data and the explanatory message, with
fused_metrics empty and every other initial field present, but without the
overall_confidence key. -/
theorem C7_amended_short_circuit (satellites : List (String × Option SatData))
    (loc : Option String) (now : String) (h : filter_valid_satellites satellites = []) :
    fuse_satellite_data (some ⟨loc, some satellites⟩) now =
      Except.ok ⟨some now, loc, [], [], [], [], some ("Unknown"), some ("Unknown"), none,
        "no_valid_data", some ("No valid satellite data available for fusion")⟩ := by
  simp only [fuse_satellite_data]
  rw [if_pos h]

/-- Witness for C7 at the empty input. -/
theorem C7_witness :
    filter_valid_satellites [] = [] ∧
    fuse_satellite_data (some ⟨none, some []⟩) ("t0") =
      Except.ok ⟨some ("t0"), none, [], [], [], [], some ("Unknown"), some ("Unknown"),
        none, "no_valid_data", some ("No valid satellite data available for fusion")⟩ :=
  ⟨rfl, C7_amended_short_circuit [] none ("t0") rfl⟩

/-- Claim C3 as stated is false: an eligible landsat8 source whose
temperature arrives in the nested shape makes the whole fusion raise a
TypeError instead of being silently excluded. -/
theorem C3_counterexample :
    fuse_satellite_data (some ⟨none, some nested_landsat_input⟩) ("2024-01-01T00:00:00") =
      Except.error ("TypeError") := by
  simp [fuse_satellite_data, nested_landsat_input, filter_valid_satellites,
    fuse_temperature, temp_sources, extract_temp]

/-- Claim C3, amended: as long as no eligible landsat8 or irs source
carries a nested temperature value, fusion never raises; a source whose
value for one metric is missing or out of range stays in data_sources, and
its in-range values still feed the other metrics. -/
theorem C3_amended_no_raise (satellites : List (String × Option SatData))
    (loc : Option String) (now : String)
    (hflat : ∀ name d, (name, some d) ∈ satellites →
      (name = "landsat8" ∨ name = "irs") →
      (d.status = "success" ∨ d.status = "fallback" ∨ d.status = "simulated") →
      ∀ ls m, d.temperature ≠ TempVal.nested ls m) :
    (∃ rep, fuse_satellite_data (some ⟨loc, some satellites⟩) now = Except.ok rep) ∧
    (∀ rep, fuse_satellite_data (some ⟨loc, some satellites⟩) now = Except.ok rep →
      ∀ name d, (name, some d) ∈ satellites →
        (d.status = "success" ∨ d.status = "fallback" ∨ d.status = "simulated") →
        name ∈ rep.data_sources) ∧
    (∀ name d q, (name, d) ∈ filter_valid_satellites satellites →
      (name = "sentinel2" ∨ name = "landsat8" ∨ name = "irs") →
      d.ndvi = some q → -1 ≤ q → q ≤ 1 →
      (name, ⟨q, weight_of name⟩) ∈ ndvi_sources (filter_valid_satellites satellites)) := by
  have hsafe : ∀ p ∈ filter_valid_satellites satellites,
      (p.1 = "landsat8" ∨ p.1 = "irs") → ∀ ls m, p.2.temperature ≠ TempVal.nested ls m := by
    rintro ⟨n, d⟩ hp hor
    obtain ⟨hin, helig⟩ := mem_filter_valid hp
    exact hflat n d hin hor helig
  obtain ⟨srcs, hts⟩ := temp_sources_ok _ hsafe
  have htf : fuse_temperature (filter_valid_satellites satellites) =
      Except.ok (build_metric srcs 4.0 1.0 3.0) := by
    rw [fuse_temperature, hts]
  refine ⟨?_, ?_, ?_⟩
  · simp only [fuse_satellite_data]
    by_cases hv : filter_valid_satellites satellites = []
    · rw [if_pos hv]
      exact ⟨_, rfl⟩
    · rw [if_neg hv, htf]
      exact ⟨_, rfl⟩
  · intro rep hrep name d hin helig
    have hmem : (name, d) ∈ filter_valid_satellites satellites :=
      mem_filter_valid_of hin helig
    simp only [fuse_satellite_data] at hrep
    by_cases hv : filter_valid_satellites satellites = []
    · rw [hv] at hmem
      simp at hmem
    · rw [if_neg hv, htf] at hrep
      dsimp only at hrep
      injection hrep with h2
      subst h2
      exact List.mem_map.mpr ⟨(name, d), hmem, rfl⟩
  · intro name d q hmem helig hnd h1 h2
    unfold ndvi_sources
    refine List.mem_filterMap.mpr ⟨(name, d), hmem, ?_⟩
    dsimp only
    rw [if_pos helig, hnd]
    dsimp only
    rw [if_pos ⟨h1, h2⟩]

/-- Witness for C3 at a landsat8 source with in-range ndvi 0.5 and an
out-of-range flat temperature 100: fusion succeeds and the ndvi reading
still contributes. -/
theorem C3_witness :
    (∃ rep, fuse_satellite_data (some ⟨none, some hot_landsat_input⟩) ("t0") =
      Except.ok rep) ∧
    ("landsat8", (⟨0.5, weight_of ("landsat8")⟩ : SourceEntry)) ∈
      ndvi_sources (filter_valid_satellites hot_landsat_input) := by
  have h := C3_amended_no_raise hot_landsat_input none ("t0") (by
    intro name d hin hor helig ls m
    simp [hot_landsat_input] at hin
    obtain ⟨-, h2⟩ := hin
    subst h2
    simp)
  refine ⟨h.1, ?_⟩
  refine h.2.2 ("landsat8") ⟨"success", some 0.5, none, TempVal.num 100, none⟩ 0.5
    ?_ (by simp) rfl (by norm_num) (by norm_num)
  simp [hot_landsat_input, filter_valid_satellites]

/-- Claim C4 as stated is false: a nested temperature value supplied by
landsat8 is not normalized to a scalar but raises a TypeError. -/
theorem C4_counterexample :
    fuse_temperature
      [("landsat8", ⟨"success", none, none, TempVal.nested none (some 25), none⟩)] =
      Except.error ("TypeError") := by
  simp [fuse_temperature, temp_sources, extract_temp]

/-- Claim C4, amended: only modis gets both shapes normalized (a nested
dictionary is read preferring land_surface and falling back to mean);
landsat8 and irs accept the flat scalar shape only and raise a TypeError on
the nested shape; every contributor's fused scalar is the extraction's
output. -/
theorem C4_amended_temp_shapes :
    (∀ d ls m, d.temperature = TempVal.nested ls m →
      extract_temp ("modis") d =
        Except.ok (match ls with | some a => some a | none => m)) ∧
    (∀ d q, d.temperature = TempVal.num q →
      extract_temp ("modis") d = Except.ok (some q) ∧
      extract_temp ("landsat8") d = Except.ok (some q) ∧
      extract_temp ("irs") d = Except.ok (some q)) ∧
    (∀ name d ls m, (name = "landsat8" ∨ name = "irs") →
      d.temperature = TempVal.nested ls m →
      extract_temp name d = Except.error ("TypeError")) ∧
    (∀ valid srcs, temp_sources valid = Except.ok srcs →
      ∀ p ∈ srcs, ∃ d, (p.1, d) ∈ valid ∧
        extract_temp p.1 d = Except.ok (some p.2.value)) := by
  refine ⟨?_, ?_, ?_, ?_⟩
  · intro d ls m h
    unfold extract_temp
    rw [if_neg (by simp), if_pos rfl, h]
    cases ls with
    | some a => rfl
    | none => rfl
  · intro d q h
    refine ⟨?_, ?_, ?_⟩
    · unfold extract_temp
      rw [if_neg (by simp), if_pos rfl, h]
    · unfold extract_temp
      rw [if_pos rfl, h]
    · unfold extract_temp
      rw [if_neg (by simp), if_neg (by simp), if_pos rfl, h]
  · intro name d ls m hor h
    rcases hor with h1 | h1
    · subst h1
      unfold extract_temp
      rw [if_pos rfl, h]
    · subst h1
      unfold extract_temp
      rw [if_neg (by simp), if_neg (by simp), if_pos rfl, h]
  · intro valid srcs hts p hp
    obtain ⟨d, hd, hex, -, -, -⟩ := mem_temp_sources valid srcs hts p.1 p.2 hp
    exact ⟨d, hd, hex⟩

/-- Witness for C4 at concrete temperature shapes. -/
theorem C4_witness :
    extract_temp ("modis")
        ⟨"success", none, none, TempVal.nested (some 30) (some 20), none⟩ =
      Except.ok (some 30) ∧
    extract_temp ("modis") ⟨"success", none, none, TempVal.nested none (some 20), none⟩ =
      Except.ok (some 20) ∧
    extract_temp ("landsat8") ⟨"success", none, none, TempVal.num 28.5, none⟩ =
      Except.ok (some 28.5) ∧
    extract_temp ("irs") ⟨"success", none, none, TempVal.nested none (some 20), none⟩ =
      Except.error ("TypeError") :=
  ⟨C4_amended_temp_shapes.1 _ (some 30) (some 20) rfl,
   C4_amended_temp_shapes.1 _ none (some 20) rfl,
   (C4_amended_temp_shapes.2.1 _ 28.5 rfl).2.1,
   C4_amended_temp_shapes.2.2.1 ("irs") _ none (some 20) (Or.inr rfl) rfl⟩

/-- Claim C8 as stated is false: in the three-source scenario the ndvi
confidence is exactly 637/750, about 0.849, which is not greater than
0.9. -/
theorem C8_counterexample :
    ∃ r, fuse_ndvi scenario_valid = some r ∧
      r.confidence = 637 / 750 ∧ ¬(r.confidence > 9 / 10) :=
  ⟨_, fuse_ndvi_scenario, rfl, by norm_num⟩

/-- Claim C8, amended: the scenario fuses to the weighted mean 1729/2700
(within 0.001 of 0.641), variance 1/15000 (within 0.00001 of 0.00007),
agreement High, and confidence 637/750, which exceeds 0.8 but not 0.9. -/
theorem C8_amended_scenario :
    ∃ r, fuse_ndvi scenario_valid = some r ∧
      r.value = 1729 / 2700 ∧ |r.value - 0.641| ≤ 0.001 ∧
      r.cross_val.variance = 1 / 15000 ∧
      |r.cross_val.variance - 0.00007| ≤ 0.00001 ∧
      r.cross_val.agreement = "High" ∧
      r.confidence = 637 / 750 ∧ r.confidence > 0.8 := by
  refine ⟨_, fuse_ndvi_scenario, rfl, ?_, rfl, ?_, rfl, rfl, ?_⟩
  · rw [abs_le]
    constructor <;> norm_num
  · rw [abs_le]
    constructor <;> norm_num
  · norm_num

/-- Confidence with zero variance is monotone in the contributor count. -/
lemma calculate_confidence_mono (n m : ℕ) (mv : ℚ) (h : n ≤ m) :
    calculate_confidence n 0 mv ≤ calculate_confidence m 0 mv := by
  unfold calculate_confidence
  refine min_le_min (max_le_max (add_le_add_right
    (mul_le_mul_of_nonneg_right (min_le_min ?_ le_rfl) (by norm_num)) _) le_rfl) le_rfl
  have hc : (n : ℚ) ≤ (m : ℚ) := by exact_mod_cast h
  have h4 : (0 : ℚ) < 4.0 := by norm_num
  exact (div_le_div_iff_of_pos_right h4).mpr hc

/-- Claim C9: adding one more agreeing contributor (same value as all the
existing ones) never decreases the confidence the engine computes for the
metric. -/
theorem C9_monotonic_agreeing (values : List ℚ) (v mv : ℚ) (hne : values ≠ [])
    (hall : ∀ x ∈ values, x = v) :
    calculate_confidence values.length (variance_of values) mv ≤
      calculate_confidence (v :: values).length (variance_of (v :: values)) mv := by
  have h1 : variance_of values = 0 := variance_of_const values v hall
  have h2 : variance_of (v :: values) = 0 := variance_of_const _ v (by
    intro x hx
    rcases List.mem_cons.mp hx with h | h
    · exact h
    · exact hall x h)
  rw [h1, h2, List.length_cons]
  exact calculate_confidence_mono _ _ mv (Nat.le_succ _)

/-- Witness for C9: one agreeing contributor added to a single source with
value 0.5 does not decrease the confidence. -/
theorem C9_witness :
    ([(0.5 : ℚ)] ≠ [] ∧ ∀ x ∈ [(0.5 : ℚ)], x = 0.5) ∧
    calculate_confidence [(0.5 : ℚ)].length (variance_of [(0.5 : ℚ)]) 0.04 ≤
      calculate_confidence ((0.5 : ℚ) :: [(0.5 : ℚ)]).length
        (variance_of ((0.5 : ℚ) :: [(0.5 : ℚ)])) 0.04 :=
  ⟨⟨by simp, by simp⟩,
   C9_monotonic_agreeing [(0.5 : ℚ)] 0.5 0.04 (by simp) (by simp)⟩

/-- On a duplicate-free mapping, a source whose extracted temperature
scalar fails the range gate contributes nothing to the temperature
fusion. -/
lemma temp_sources_excludes (valid : List (String × SatData)) :
    ∀ srcs, temp_sources valid = Except.ok srcs →
    (valid.map Prod.fst).Nodup →
    ∀ name d q, (name, d) ∈ valid → extract_temp name d = Except.ok (some q) →
      ¬(0 ≤ q ∧ q ≤ 60) → name ∉ srcs.map Prod.fst := by
  induction valid with
  | nil =>
    intro srcs h hnd name d q hin
    simp at hin
  | cons p rest ih =>
    intro srcs h hnd name d q hin hex hq hmem
    obtain ⟨n0, d0⟩ := p
    simp only [temp_sources] at h
    rw [List.map_cons] at hnd
    obtain ⟨hn0, hndr⟩ := List.nodup_cons.mp hnd
    cases hx : extract_temp n0 d0 with
    | error er => rw [hx] at h; exact absurd h (by simp)
    | ok t =>
      rw [hx] at h
      cases t with
      | none =>
        dsimp only at h
        rcases List.mem_cons.mp hin with hh | hin2
        · injection hh with h4 h5
          subst h4
          subst h5
          rw [hx] at hex
          exact absurd hex (by simp)
        · exact ih srcs h hndr name d q hin2 hex hq hmem
      | some q0 =>
        dsimp only at h
        cases hr : temp_sources rest with
        | error er => rw [hr] at h; exact absurd h (by simp)
        | ok tail =>
          rw [hr] at h
          dsimp only at h
          by_cases hq0 : 0 ≤ q0 ∧ q0 ≤ 60
          · rw [if_pos hq0] at h
            injection h with h2
            subst h2
            rw [List.map_cons] at hmem
            rcases List.mem_cons.mp hmem with h3 | h3
            · subst h3
              rcases List.mem_cons.mp hin with hh | hin2
              · injection hh with h4 h5
                subst h5
                rw [hx] at hex
                injection hex with h6
                injection h6 with h7
                exact hq (h7 ▸ hq0)
              · exact hn0 (List.mem_map.mpr ⟨(name, d), hin2, rfl⟩)
            · rcases List.mem_cons.mp hin with hh | hin2
              · injection hh with h4 h5
                subst h4
                obtain ⟨⟨nm, e⟩, hmem2, hfst⟩ := List.mem_map.mp h3
                obtain ⟨d2, hd2, -, -, -, -⟩ := mem_temp_sources rest tail hr nm e hmem2
                exact hn0 (List.mem_map.mpr ⟨(nm, d2), hd2, hfst⟩)
              · exact ih tail hr hndr name d q hin2 hex hq h3
          · rw [if_neg hq0] at h
            injection h with h2
            subst h2
            rcases List.mem_cons.mp hin with hh | hin2
            · injection hh with h4 h5
              subst h4
              obtain ⟨⟨nm, e⟩, hmem2, hfst⟩ := List.mem_map.mp hmem
              obtain ⟨d2, hd2, -, -, -, -⟩ := mem_temp_sources rest tail hr nm e hmem2
              exact hn0 (List.mem_map.mpr ⟨(nm, d2), hd2, hfst⟩)
            · exact ih tail hr hndr name d q hin2 hex hq hmem

/-- Claim C10: temperature contributions are accepted exactly when the
extracted scalar lies inside [0, 60]; a source reporting a temperature
below 0 or above 60 is silently excluded from the temperature fusion. -/
theorem C10_temp_range_gate (valid : List (String × SatData))
    (hnodup : (valid.map Prod.fst).Nodup) (srcs : List (String × SourceEntry))
    (hts : temp_sources valid = Except.ok srcs) :
    (∀ p ∈ srcs, 0 ≤ p.2.value ∧ p.2.value ≤ 60) ∧
    (∀ name d q, (name, d) ∈ valid → extract_temp name d = Except.ok (some q) →
      (q < 0 ∨ 60 < q) → name ∉ srcs.map Prod.fst) := by
  constructor
  · rintro ⟨n, e⟩ hp
    obtain ⟨d, -, -, h1, h2, -⟩ := mem_temp_sources valid srcs hts n e hp
    exact ⟨h1, h2⟩
  · intro name d q hin hex hqor
    refine temp_sources_excludes valid srcs hts hnodup name d q hin hex ?_
    rintro ⟨ha, hb⟩
    rcases hqor with h | h
    · linarith
    · linarith

/-- The temperature contributor list of the cold demo: landsat8 at -5 is
rejected, modis at 30 is kept with weight 0.6. -/
lemma temp_sources_cold :
    temp_sources cold_valid = Except.ok [("modis", ⟨30, 3 / 5⟩)] := by
  simp [cold_valid, temp_sources, extract_temp, weight_of, satellite_weights]
  norm_num

/-- Witness for C10 at the cold demo: the kept contributor is in range and
the sub-zero landsat8 source is excluded. -/
theorem C10_witness :
    (∀ p ∈ [("modis", (⟨30, 3 / 5⟩ : SourceEntry))], 0 ≤ p.2.value ∧ p.2.value ≤ 60) ∧
    "landsat8" ∉ [("modis", (⟨30, 3 / 5⟩ : SourceEntry))].map Prod.fst := by
  have hnd : (cold_valid.map Prod.fst).Nodup := by simp [cold_valid]
  have h := C10_temp_range_gate cold_valid hnd [("modis", ⟨30, 3 / 5⟩)] temp_sources_cold
  refine ⟨h.1, ?_⟩
  refine h.2 ("landsat8") ⟨"success", none, none, TempVal.num (-5), none⟩ (-5)
    (List.mem_cons_self _ _) ?_ (Or.inl (by norm_num))
  simp [extract_temp]

end Omnisight
